import Mathlib

/-!
Verification development for the `imagr-ng` repository (single source file
`src/main.rs`): a producer/consumer pipeline that walks a paginated photo API
and concurrently downloads photos to disk.

The Rust source is shallowly embedded as follows.

* Pure data transformations (`extension`, `filename`, the
  `Into<Vec<DownloadablePhoto>>` impl for `Post`) become Lean functions over
  `String` / `List`.  Rust's `str::rsplit(c).next()` is modelled by `rsplit`
  (the list of split pieces, reversed) followed by `List.head?`; `expect` is
  modelled by `Option` (a `none` would be the panic), `unwrap_or` by
  `Option.getD`.
* `fetch_photo_posts` is embedded twice, at two levels of abstraction that a
  reader can line up with the same loop in the source:
  - `fetchPhotoPosts`, a pure function from the sequence of network responses
    (each either a transport/decode failure or a decoded `ResponseEnvelope`)
    to the `anyhow::Result` of the function, used for the error-path claims;
  - `producerTrace`, the sequence of observable producer actions
    (page fetches, channel sends, channel close) on a successful run,
    used for the ordering/pagination claims.
* The whole pipeline (`main` spawning `fetch_photo_posts`, the bounded
  `mpsc::channel(64)`, and the `fetch_photos` select loop with its
  `FuturesUnordered` in-flight set) is embedded as a small-step transition
  relation `Step` over a global state `GState`.  tokio semantics that the
  source relies on are modelled faithfully: `send` suspends while the buffer
  holds `capacity` items; dropping the `Sender` (which happens when the
  spawned `fetch_photo_posts` future completes, with `Ok` or with `Err`)
  closes the channel; `recv` returns `none` once the channel is closed and
  drained; `send` on a channel whose `Receiver` was dropped fails
  immediately; dropping the `FuturesUnordered` (which happens when
  `fetch_photos` early-returns through `result?` or `try_collect`'s first
  error) cancels the still-unresolved download futures.
* The filesystem is a record `FS` of created directories and written files;
  `tokio::fs::create_dir_all` and the `File::create`/`FramedWrite` streaming
  in `fetch_and_write_photo` are modelled over it (`createDirAll`,
  `fetchAndWritePhoto`).  Partial contents of failed or cancelled downloads
  are not tracked: only a download that ran to completion records its full
  byte content.
-/

/-! ## Data model (`ResponseEnvelope`, `Meta`, `Links`, `Response`, `Post`) -/

/-- `struct Meta { status: u16, msg: String }`. -/
structure Meta where
  status : Nat
  msg : String
deriving Repr, DecidableEq

/-- `Meta::is_success`: `self.status == 200`.  (Defined in the source but,
as the theorems below establish, never called by it.) -/
def Meta.is_success (m : Meta) : Bool :=
  m.status == 200

/-- `struct Link { href: String, method: String }`. -/
structure Link where
  href : String
  method : String
deriving Repr, DecidableEq

/-- `struct Links { next: Link }`. -/
structure Links where
  next : Link
deriving Repr, DecidableEq

/-- `struct Photo { url: String }`. -/
structure Photo where
  url : String
deriving Repr, DecidableEq

/-- `struct OriginalPhoto { original_size: Photo }`. -/
structure OriginalPhoto where
  original_size : Photo
deriving Repr, DecidableEq

/-- `struct Post { id: u64, slug: String, photos: Vec<OriginalPhoto> }`.
`u64` is modelled as `Nat`; the program only formats `id`, never does
arithmetic on it, so no wraparound is observable. -/
structure Post where
  id : Nat
  slug : String
  photos : List OriginalPhoto
deriving Repr, DecidableEq

/-- `struct Response { posts: Vec<Post>, _links: Option<Links> }`. -/
structure Response where
  posts : List Post
  links : Option Links
deriving Repr, DecidableEq

/-- `struct ResponseEnvelope<T> { meta: Meta, response: T }`. -/
structure ResponseEnvelope (T : Type) where
  meta : Meta
  response : T
deriving Repr, DecidableEq

/-- `struct DownloadablePhoto { filename: String, url: String }`. -/
structure DownloadablePhoto where
  filename : String
  url : String
deriving Repr, DecidableEq

/-! ## `extension`, `filename`, `impl Into<Vec<DownloadablePhoto>> for Post` -/

/-- The pieces of `l` split at every occurrence of the character `c`, in
left-to-right order; the embedding of Rust's `str::split(c)` collected to a
list.  Splitting never yields zero pieces (`splitChar_ne_nil`). -/
def splitChar (c : Char) : List Char → List (List Char)
  | [] => [[]]
  | x :: xs =>
    match splitChar c xs with
    | [] => [[]]
    | y :: ys => if x = c then [] :: y :: ys else (x :: y) :: ys

/-- Rust's `str::rsplit(c)` collected to a list: the split pieces in
right-to-left order.  The source only ever takes `.next()` of an `rsplit`
iterator, embedded here as `(rsplit c l).head?`. -/
def rsplit (c : Char) (l : List Char) : List (List Char) :=
  (splitChar c l).reverse

/-- `fn extension(url: &str) -> &str`:
`url.rsplit('/').next().expect(..)` then `.rsplit('.').next().unwrap_or("unknown")`.
The `expect` is embedded as `Option` (a `none` would be the panic);
the `unwrap_or` as `Option.getD`. -/
def extension (url : String) : Option String :=
  ((rsplit '/' url.data).head?).map fun fname =>
    String.mk (((rsplit '.' fname).head?).getD "unknown".data)

/-- `fn filename(id, slug, index, ext) -> String`:
`format!("{slug}{slug_dash}{id}-{index}.{ext}")` with `slug_dash` empty
exactly when `slug` is empty. -/
def filename (id : Nat) (slug : String) (index : Nat) (ext : String) : String :=
  let slug_dash := if slug = "" then "" else "-"
  slug ++ slug_dash ++ toString id ++ "-" ++ toString index ++ "." ++ ext

/-- `impl Into<Vec<DownloadablePhoto>> for Post`: one `DownloadablePhoto` per
element of `photos`, keeping the enumeration index.  This is the spec's
`expand(CatalogEntry) -> [WorkItem]`.  The source reads `extension(&url)`
through `expect`-style totality; the `getD ""` default is proved unreachable
by the `extension` totality theorem below. -/
def postInto (p : Post) : List DownloadablePhoto :=
  p.photos.enum.map fun pr =>
    let url := pr.2.original_size.url
    let ext := (extension url).getD ""
    { filename := filename p.id p.slug pr.1 ext, url := url }

/-! ## `fetch_photo_posts`, error path (`FetchError` behaviour)

`fetchPhotoPosts` consumes the list of network interactions the function
performs, in order: element `k` is the outcome of the `k`-th
`reqwest::get(..).json::<ResponseEnvelope<Response>>()` round trip — either a
transport/decode failure (the two `?`s) or the decoded envelope.  The
function walks the list exactly as the source loop walks the link chain: it
stops at the first failure, and stops following the chain at the first
envelope whose `links` is `none`.  (An input list longer than the chain the
code would actually follow simply has its tail ignored, like responses never
requested; an input list exhausted while `links` was still `some` does not
correspond to any run and yields the items gathered so far.) -/

/-- A failed `reqwest::get(..)` (`transport`) or a failed
`.json::<ResponseEnvelope<Response>>()` (`decode`), the two error sources the
`?`s in `fetch_photo_posts` propagate; `sendFailure` is the error of
`tx.send(photo).await?` when the receiver was dropped. -/
inductive FetchFailure where
  | transport (msg : String)
  | decode (msg : String)
  | sendFailure
deriving Repr, DecidableEq

/-- The result of `fetch_photo_posts`, with the photos it sent in order on
the success path (the channel sends are modelled separately by
`producerTrace` and `Step`). -/
def fetchPhotoPosts :
    List (Except FetchFailure (ResponseEnvelope Response)) →
      Except FetchFailure (List DownloadablePhoto)
  | [] => .ok []
  | .error e :: _ => .error e
  | .ok env :: rest =>
    let items := env.response.posts.flatMap postInto
    match env.response.links with
    | some _ => (fetchPhotoPosts rest).map (fun more => items ++ more)
    | none => .ok items

/-- Rewrite the `meta` of a decoded envelope; used to state that
`fetch_photo_posts` never inspects `meta`. -/
def mapMeta (f : Meta → Meta) :
    Except FetchFailure (ResponseEnvelope Response) →
      Except FetchFailure (ResponseEnvelope Response)
  | .error e => .error e
  | .ok env => .ok { meta := f env.meta, response := env.response }

/-! ## `fetch_photo_posts`, successful-run action trace

On a run where every fetch succeeds, the catalog is a nonempty list of pages
(the page fetched first, then the pages reached by following each `_links.next`;
the last page is the one whose `links` is `none`).  `producerTrace` is the
sequence of observable actions: `fetchPage i` for the `i`-th HTTP round trip,
`send item` for each `tx.send(photo)`, and `close` for the drop of `tx` when
the function returns `Ok(())`. -/

/-- One observable action of the producer task. -/
inductive PEvent where
  | fetchPage (i : Nat)
  | send (item : DownloadablePhoto)
  | close
deriving Repr, DecidableEq

/-- The sends performed by the two nested `for` loops over one page:
`for post in posts { for photo in post.into() { tx.send(photo) } }`. -/
def pageSends (posts : List Post) : List PEvent :=
  posts.flatMap fun p => (postInto p).map PEvent.send

/-- The `loop { ... }` of `fetch_photo_posts`, holding the current page's
posts and the pages the remaining link chain will yield: emit the current
page, then either fetch the next page and repeat, or (no `links`) break,
return `Ok(())` and thereby drop `tx`. -/
def producerLoop (i : Nat) (cur : List Post) : List (List Post) → List PEvent
  | [] => pageSends cur ++ [PEvent.close]
  | nxt :: rest => pageSends cur ++ (PEvent.fetchPage (i + 1) :: producerLoop (i + 1) nxt rest)

/-- The full action trace of a successful `fetch_photo_posts` run over the
catalog `first :: rest`. -/
def producerTrace (first : List Post) (rest : List (List Post)) : List PEvent :=
  PEvent.fetchPage 0 :: producerLoop 0 first rest

/-- Is an event a channel send? -/
def PEvent.isSend : PEvent → Bool
  | .send _ => true
  | _ => false

/-- The photo of a send event. -/
def PEvent.sentItem : PEvent → Option DownloadablePhoto
  | .send it => some it
  | _ => none

/-- The page index of a fetch event. -/
def PEvent.fetchedPage : PEvent → Option Nat
  | .fetchPage i => some i
  | _ => none

/-! ## Filesystem model

Directories created and files written, as the consumer side sees them.
A file is recorded only once its download ran to completion; the partial or
empty contents that a failed or cancelled `fetch_and_write_photo` may leave
behind are not tracked (no claim depends on them). -/

/-- The filesystem: the set (as a list) of created directory paths, and an
association list from file path to full byte content (head entry wins). -/
structure FS where
  dirs : List String
  files : List (String × List Nat)
deriving Repr, DecidableEq

/-- Read a file's content. -/
def FS.read (fs : FS) (p : String) : Option (List Nat) :=
  (fs.files.find? fun e => e.1 == p).map Prod.snd

/-- Write (create or overwrite) a file's content. -/
def FS.write (fs : FS) (p : String) (content : List Nat) : FS :=
  { fs with files := (p, content) :: fs.files.filter fun e => e.1 != p }

/-- `tokio::fs::create_dir_all(&directory)`.  Modelled from the primitive's
documented contract, which the spec restates: create the directory if it is
absent, succeed without error and without touching anything if it is already
present.  (The primitive itself is library code, not part of this
repository.) -/
def createDirAll (d : String) (fs : FS) : FS :=
  if d ∈ fs.dirs then fs else { fs with dirs := d :: fs.dirs }

/-- The body of `fetch_and_write_photo` after the file handle and response
exist: forward each arriving chunk to the `FramedWrite`, appending it to the
file. -/
def forwardChunks (p : String) (fs : FS) : List (List Nat) → FS
  | [] => fs
  | ch :: rest => forwardChunks p (fs.write p ((fs.read p).getD [] ++ ch)) rest

/-- `fetch_and_write_photo(path, url)` on a successful download whose body
arrives as `chunks`: `File::create` truncates the file to empty, then the
byte stream is forwarded chunk by chunk into the framed writer. -/
def fetchAndWritePhoto (fs : FS) (p : String) (chunks : List (List Nat)) : FS :=
  forwardChunks p (fs.write p []) chunks

/-! ## The pipeline (`main`, the bounded channel, `fetch_photos`)

Global small-step semantics.  Parameters fixed for a run: the channel
capacity `cap` (64 in `main`), the download directory `dir`
(`/tmp/pics` in `main`), the download behaviour `dl` mapping a photo URL to
its outcome (a transport failure, or the successful body as a chunk list),
and `pres`, the result `fetch_photo_posts` terminates with after its sends
(`Ok(())`, or the fetch failure it stops at). -/

/-- A failed resource download inside `fetch_and_write_photo` (file creation
failure, `reqwest::get` failure, or a mid-stream body error). -/
inductive DlFailure where
  | transport (msg : String)
deriving Repr, DecidableEq

/-- The control point of the consumer (`fetch_photos`):
about to `create_dir_all`; in the `loop { tokio::select! { .. } }`;
draining `tasks.try_collect()` after `rx.recv()` returned `None`;
returned `Ok(())`; or early-returned an error (through `result?` or
`try_collect`), which drops `rx` and the `FuturesUnordered`. -/
inductive CPhase where
  | makedir
  | looping
  | draining
  | doneOk
  | doneErr (e : DlFailure)
deriving Repr, DecidableEq

/-- Is the consumer's `Receiver` still alive?  `rx` is owned by
`fetch_photos` and dropped exactly when it returns. -/
def CPhase.rxAlive : CPhase → Bool
  | .doneOk => false
  | .doneErr _ => false
  | _ => true

/-- May in-flight download futures make progress?  They live in the
`FuturesUnordered` owned by `fetch_photos`, polled during the select loop and
during the final `try_collect`, and dropped (cancelling them) when
`fetch_photos` returns. -/
def CPhase.pollsTasks : CPhase → Bool
  | .looping => true
  | .draining => true
  | _ => false

deriving instance DecidableEq for Except

/-- Global state of the pipeline.
`toSend`: photos the producer has not yet pushed (its remaining sends, in
order); `prodDone`: `none` while the spawned `fetch_photo_posts` future is
alive, otherwise the result it completed with; `buffer`: the channel's queued
items, oldest first; `closed`: whether the `Sender` has been dropped;
`cphase`: the consumer's control point; `running`: dequeued photos whose
download future has not yet resolved (the in-flight set); `ready`: resolved
but not yet observed download results, in completion order; `fs`: the
filesystem. -/
structure GState where
  toSend : List DownloadablePhoto
  prodDone : Option (Except FetchFailure Unit)
  buffer : List DownloadablePhoto
  closed : Bool
  cphase : CPhase
  running : List DownloadablePhoto
  ready : List (Except DlFailure Unit)
  fs : FS
deriving Repr, DecidableEq

/-- One atomic step of the pipeline. -/
inductive Step (cap : Nat) (dir : String) (dl : String → Except DlFailure (List (List Nat)))
    (pres : Except FetchFailure Unit) : GState → GState → Prop where
  /-- `tx.send(photo).await` completes: only while the buffer is below
  capacity (otherwise the send stays suspended) and the receiver is alive. -/
  | send (s : GState) (it : DownloadablePhoto) (rest : List DownloadablePhoto)
      (hts : s.toSend = it :: rest) (hpd : s.prodDone = none)
      (hcap : s.buffer.length < cap) (hrx : s.cphase.rxAlive = true) :
      Step cap dir dl pres s { s with toSend := rest, buffer := s.buffer ++ [it] }
  /-- `tx.send(photo).await` returns an error because `rx` was dropped:
  `fetch_photo_posts` propagates it through `?` and terminates, dropping
  `tx` and closing the channel. -/
  | sendFail (s : GState) (it : DownloadablePhoto) (rest : List DownloadablePhoto)
      (hts : s.toSend = it :: rest) (hpd : s.prodDone = none)
      (hrx : s.cphase.rxAlive = false) :
      Step cap dir dl pres s { s with prodDone := some (.error .sendFailure), closed := true }
  /-- All sends done: `fetch_photo_posts` terminates with its result `pres`
  (`Ok` after the last page, or the error of a failed fetch), and the drop of
  `tx` closes the channel either way. -/
  | prodTerm (s : GState) (hts : s.toSend = []) (hpd : s.prodDone = none) :
      Step cap dir dl pres s { s with prodDone := some pres, closed := true }
  /-- `tokio::fs::create_dir_all(&directory).await?` at the top of
  `fetch_photos`, before the select loop. -/
  | makedir (s : GState) (hph : s.cphase = .makedir) :
      Step cap dir dl pres s { s with fs := createDirAll dir s.fs, cphase := .looping }
  /-- Select picks `rx.recv()` and an item is available: push its download
  future onto the `FuturesUnordered`. -/
  | recvItem (s : GState) (it : DownloadablePhoto) (rest : List DownloadablePhoto)
      (hph : s.cphase = .looping) (hbuf : s.buffer = it :: rest) :
      Step cap dir dl pres s { s with buffer := rest, running := s.running ++ [it] }
  /-- Select picks `rx.recv()` and it returns `None` (sender dropped, buffer
  drained): break out of the loop into `tasks.try_collect()`. -/
  | recvClosed (s : GState) (hph : s.cphase = .looping) (hbuf : s.buffer = [])
      (hcl : s.closed = true) :
      Step cap dir dl pres s { s with cphase := .draining }
  /-- An in-flight download runs to completion successfully, writing its
  streamed bytes to its own destination file; its `Ok` result becomes ready
  for `tasks.next()` / `try_collect`. -/
  | resolveOk (s : GState) (pre : List DownloadablePhoto) (it : DownloadablePhoto)
      (post : List DownloadablePhoto) (chunks : List (List Nat))
      (hph : s.cphase.pollsTasks = true) (hrun : s.running = pre ++ it :: post)
      (hdl : dl it.url = .ok chunks) :
      Step cap dir dl pres s
        { s with running := pre ++ post, ready := s.ready ++ [.ok ()],
                 fs := fetchAndWritePhoto s.fs (dir ++ "/" ++ it.filename) chunks }
  /-- An in-flight download resolves with a failure; its `Err` result becomes
  ready.  (Whatever partial file it leaves behind is not tracked.) -/
  | resolveErr (s : GState) (pre : List DownloadablePhoto) (it : DownloadablePhoto)
      (post : List DownloadablePhoto) (e : DlFailure)
      (hph : s.cphase.pollsTasks = true) (hrun : s.running = pre ++ it :: post)
      (hdl : dl it.url = .error e) :
      Step cap dir dl pres s { s with running := pre ++ post, ready := s.ready ++ [.error e] }
  /-- Select picks `tasks.next()` in the loop and yields a completed `Ok`:
  `result?` passes and the loop continues. -/
  | observeOk (s : GState) (rest : List (Except DlFailure Unit))
      (hph : s.cphase = .looping) (hrdy : s.ready = .ok () :: rest) :
      Step cap dir dl pres s { s with ready := rest }
  /-- Select picks `tasks.next()` in the loop and yields a completed `Err`:
  `result?` early-returns, dropping `rx` and the `FuturesUnordered` and
  cancelling every still-unresolved download. -/
  | observeErr (s : GState) (e : DlFailure) (rest : List (Except DlFailure Unit))
      (hph : s.cphase = .looping) (hrdy : s.ready = .error e :: rest) :
      Step cap dir dl pres s { s with cphase := .doneErr e, running := [], ready := [] }
  /-- `tasks.try_collect()` harvests a completed `Ok` while draining. -/
  | drainOk (s : GState) (rest : List (Except DlFailure Unit))
      (hph : s.cphase = .draining) (hrdy : s.ready = .ok () :: rest) :
      Step cap dir dl pres s { s with ready := rest }
  /-- `tasks.try_collect()` meets a completed `Err` while draining: it
  short-circuits, `fetch_photos` returns the error, dropping the remaining
  futures. -/
  | drainErr (s : GState) (e : DlFailure) (rest : List (Except DlFailure Unit))
      (hph : s.cphase = .draining) (hrdy : s.ready = .error e :: rest) :
      Step cap dir dl pres s { s with cphase := .doneErr e, running := [], ready := [] }
  /-- `tasks.try_collect()` finds the stream exhausted with no failure:
  `fetch_photos` returns `Ok(())`. -/
  | drainDone (s : GState) (hph : s.cphase = .draining) (hrun : s.running = [])
      (hrdy : s.ready = []) :
      Step cap dir dl pres s { s with cphase := .doneOk }

/-- The initial pipeline state: `main` after `mpsc::channel(64)` and
`tokio::spawn(fetch_photo_posts(..))`, with `fetch_photos` about to run.
`items` is the sequence of photos the producer will send, `fs0` the starting
filesystem. -/
def initState (items : List DownloadablePhoto) (fs0 : FS) : GState :=
  { toSend := items, prodDone := none, buffer := [], closed := false,
    cphase := .makedir, running := [], ready := [], fs := fs0 }

/-- Reachability under the pipeline step relation. -/
def Reaches (cap : Nat) (dir : String) (dl : String → Except DlFailure (List (List Nat)))
    (pres : Except FetchFailure Unit) : GState → GState → Prop :=
  Relation.ReflTransGen (Step cap dir dl pres)

/-- `mpsc::channel(64)` in `main`. -/
def queueCapacity : Nat := 64

/-- `PathBuf::from("/tmp/pics")` in `main`. -/
def downloadDirectory : String := "/tmp/pics"

/-- The overall process result assembled by `main`:
`fetch_photos(rx, ..).await?` first, then `join_fetch_posts.await??`. -/
def mainResult (consumerRes : Except DlFailure Unit) (producerRes : Except FetchFailure Unit) :
    Except (Except DlFailure Unit ⊕ Except FetchFailure Unit) Unit :=
  match consumerRes with
  | .error e => .error (.inl (.error e))
  | .ok _ =>
    match producerRes with
    | .error e => .error (.inr (.error e))
    | .ok _ => .ok ()

/-- The value `fetch_photos` returned, read off the consumer's terminal
control point. -/
def consumerResult : CPhase → Option (Except DlFailure Unit)
  | .doneOk => some (.ok ())
  | .doneErr e => some (.error e)
  | _ => none

/-! ## Concrete scenario inputs used by closed runs below -/

/-- The empty filesystem. -/
def fs0 : FS := { dirs := [], files := [] }

/-- Work items `w1` … `w5` of the five-download scenario. -/
def w1 : DownloadablePhoto := { filename := "f1", url := "u1" }

/-- Second work item of the five-download scenario. -/
def w2 : DownloadablePhoto := { filename := "f2", url := "u2" }

/-- Third work item of the five-download scenario (its download fails). -/
def w3 : DownloadablePhoto := { filename := "f3", url := "u3" }

/-- Fourth work item of the five-download scenario. -/
def w4 : DownloadablePhoto := { filename := "f4", url := "u4" }

/-- Fifth work item of the five-download scenario. -/
def w5 : DownloadablePhoto := { filename := "f5", url := "u5" }

/-- Download behaviour of the five-download scenario: every URL succeeds
with body `[7, 7] ++ [7]` except `u3`, which fails with a transport error. -/
def dlFive : String → Except DlFailure (List (List Nat)) :=
  fun u => if u = "u3" then .error (.transport "boom") else .ok [[7, 7], [7]]

/-- A download behaviour where every URL succeeds with an empty body. -/
def dlEmpty : String → Except DlFailure (List (List Nat)) :=
  fun _ => .ok []

/-- A successfully decoded envelope whose embedded application status is a
non-success `500`. -/
def failedStatusPage : ResponseEnvelope Response :=
  { meta := { status := 500, msg := "Internal Server Error" },
    response := { posts := [], links := none } }

/-- The destination path of a work item under `main`'s download directory:
`directory.join(photo.filename)`. -/
def photoPath (it : DownloadablePhoto) : String :=
  downloadDirectory ++ "/" ++ it.filename

/-- Terminal state of the cancelled-siblings run of the five-download
scenario: all five items were sent, dequeued and in flight when `w3`'s
failure resolved first and was observed, so `fetch_photos` early-returned,
dropping the `FuturesUnordered` with the four sibling downloads unresolved —
no file was ever completed. -/
def cancelledRunEnd : GState :=
  { toSend := [], prodDone := some (Except.ok ()), buffer := [], closed := true,
    cphase := CPhase.doneErr (DlFailure.transport "boom"), running := [], ready := [],
    fs := createDirAll downloadDirectory fs0 }

/-- Terminal state of the favourable-schedule run of the five-download
scenario: `w1`, `w2`, `w4`, `w5` resolved (writing their files) before
`w3`'s failure was observed during the drain, so four complete files are on
disk and the consumer still reports the failure. -/
def completedRunEnd : GState :=
  { toSend := [], prodDone := some (Except.ok ()), buffer := [], closed := true,
    cphase := CPhase.doneErr (DlFailure.transport "boom"), running := [], ready := [],
    fs := fetchAndWritePhoto (fetchAndWritePhoto (fetchAndWritePhoto (fetchAndWritePhoto
      (createDirAll downloadDirectory fs0)
      (photoPath w1) [[7, 7], [7]])
      (photoPath w2) [[7, 7], [7]])
      (photoPath w4) [[7, 7], [7]])
      (photoPath w5) [[7, 7], [7]] }

/-- The pipeline invariant, preserved by every `Step` and holding at
`initState`: the buffer never exceeds the capacity; once the producer task
has terminated (successfully or not) the channel is closed; the draining and
`doneOk` control points are only reached with the channel closed; successful
consumer completion (`doneOk`) means no accepted download is unresolved and
no resolved result unobserved; consumer failure (`doneErr`) means the
remaining in-flight set was dropped; no download is in flight before the
storage root was created; and past the `create_dir_all` the storage root
directory exists. -/
def PipeInv (cap : Nat) (dirName : String) (s : GState) : Prop :=
  s.buffer.length ≤ cap ∧
  (s.prodDone ≠ none → s.closed = true) ∧
  (s.cphase = CPhase.draining → s.closed = true) ∧
  (s.cphase = CPhase.doneOk → s.closed = true ∧ s.running = [] ∧ s.ready = []) ∧
  (∀ e, s.cphase = CPhase.doneErr e → s.running = [] ∧ s.ready = []) ∧
  (s.cphase = CPhase.makedir → s.running = []) ∧
  (s.cphase ≠ CPhase.makedir → dirName ∈ s.fs.dirs)

/-! ## Totality of `extension` (claim C10) -/

/-- Splitting a character list yields at least one piece, as `str::split`'s
iterator yields at least one item. -/
theorem splitChar_ne_nil (c : Char) (l : List Char) : splitChar c l ≠ [] := by
  cases l with
  | nil => simp [splitChar]
  | cons x xs =>
    rw [splitChar]
    rcases h : splitChar c xs with _ | ⟨y, ys⟩
    · simp
    · by_cases hxc : x = c <;> simp [hxc]

/-- Splitting at a character that does not occur yields the whole list as the
single piece. -/
theorem splitChar_of_not_mem {c : Char} {l : List Char} (h : c ∉ l) : splitChar c l = [l] := by
  induction l with
  | nil => simp [splitChar]
  | cons x xs ih =>
    simp only [List.mem_cons, not_or] at h
    rw [splitChar, ih h.2]
    simp [Ne.symm h.1]

/-- `rsplit(c).next()` always yields an element. -/
theorem rsplit_head_total (c : Char) (l : List Char) : ∃ y, (rsplit c l).head? = some y := by
  have h := splitChar_ne_nil c l
  cases hrev : (splitChar c l).reverse with
  | nil => exact absurd (by simpa using hrev) h
  | cons a as => exact ⟨a, by simp [rsplit, hrev]⟩

/-- `rsplit` at an absent character yields exactly the whole list. -/
theorem rsplit_of_not_mem {c : Char} {l : List Char} (h : c ∉ l) : rsplit c l = [l] := by
  simp [rsplit, splitChar_of_not_mem h]

/-- C10: for every input string `url`, `extension url` is total and never
panics: the `rsplit('/')` always yields a first piece, so the `expect` is
unreachable; the `rsplit('.')` of that piece also always yields a first
piece, so the `unwrap_or("unknown")` fallback is unreachable; and when the
last path segment contains no `'.'`, `extension` returns that entire segment
rather than `"unknown"`. -/
theorem extension_total_never_unknown (url : String) :
    (extension url).isSome = true ∧
    ∀ fname, (rsplit '/' url.data).head? = some fname →
      ((rsplit '.' fname).head? ≠ none ∧
        ('.' ∉ fname → extension url = some (String.mk fname))) := by
  constructor
  · obtain ⟨y, hy⟩ := rsplit_head_total '/' url.data
    simp [extension, hy]
  · intro fname hf
    constructor
    · obtain ⟨y, hy⟩ := rsplit_head_total '.' fname
      simp [hy]
    · intro hdot
      rw [extension, hf]
      simp [rsplit_of_not_mem hdot]

/-- Witness for C10 at the concrete URL `"https://x.com/abc"`, whose last
path segment `abc` contains no dot: `extension` returns the whole segment. -/
theorem extension_total_never_unknown_witness :
    extension "https://x.com/abc" = some (String.mk "abc".data) :=
  ((extension_total_never_unknown "https://x.com/abc").2 "abc".data (by decide)).2 (by decide)

/-! ## Producer emission order and pagination (claims C1, C7) -/

/-- Mapping photos to send events and projecting back is the identity. -/
theorem filterMap_sentItem_map_send (l : List DownloadablePhoto) :
    (l.map PEvent.send).filterMap PEvent.sentItem = l := by
  rw [List.filterMap_map]
  have : (PEvent.sentItem ∘ PEvent.send) = some := by
    funext it; rfl
  simp [this]

/-- Send events carry no page fetch. -/
theorem filterMap_fetchedPage_map_send (l : List DownloadablePhoto) :
    (l.map PEvent.send).filterMap PEvent.fetchedPage = [] := by
  rw [List.filterMap_map]
  have : (PEvent.fetchedPage ∘ PEvent.send) = fun _ => none := by
    funext it; rfl
  simp [this]

/-- The sends of one page project back to exactly that page's expansion, in
entry-then-resource-index order. -/
theorem pageSends_sentItem (posts : List Post) :
    (pageSends posts).filterMap PEvent.sentItem = posts.flatMap postInto := by
  induction posts with
  | nil => simp [pageSends]
  | cons p ps ih =>
    simp only [pageSends, List.flatMap_cons, List.filterMap_append] at *
    rw [ih, filterMap_sentItem_map_send]

/-- One page's sends contain no page fetch. -/
theorem pageSends_fetchedPage (posts : List Post) :
    (pageSends posts).filterMap PEvent.fetchedPage = [] := by
  induction posts with
  | nil => simp [pageSends]
  | cons p ps ih =>
    simp only [pageSends, List.flatMap_cons, List.filterMap_append] at *
    rw [ih, filterMap_fetchedPage_map_send]
    rfl

/-- One page's sends contain no close. -/
theorem pageSends_no_close (posts : List Post) : PEvent.close ∉ pageSends posts := by
  intro hmem
  simp only [pageSends, List.mem_flatMap, List.mem_map] at hmem
  obtain ⟨p, _, it, _, h⟩ := hmem
  exact PEvent.noConfusion h

/-- Closed form of the producer loop: the current page's sends, then for each
remaining page a fetch followed by that page's sends, then the close. -/
theorem producerLoop_flat (rest : List (List Post)) : ∀ (i : Nat) (cur : List Post),
    producerLoop i cur rest =
      pageSends cur ++
        (((List.enumFrom (i + 1) rest).flatMap fun pr => PEvent.fetchPage pr.1 :: pageSends pr.2)
          ++ [PEvent.close]) := by
  induction rest with
  | nil =>
    intro i cur
    simp [producerLoop]
  | cons nxt rs ih =>
    intro i cur
    simp only [producerLoop, ih, List.enumFrom, List.flatMap_cons]
    simp [List.append_assoc]

/-- Closed form of the whole producer trace: for each page (in catalog
order) a fetch of that page followed by its sends, then a single final
close. -/
theorem producerTrace_flat (first : List Post) (rest : List (List Post)) :
    producerTrace first rest =
      ((List.enumFrom 0 (first :: rest)).flatMap fun pr =>
          PEvent.fetchPage pr.1 :: pageSends pr.2)
        ++ [PEvent.close] := by
  simp [producerTrace, producerLoop_flat, List.enumFrom, List.flatMap_cons]

/-- The per-page blocks project to the full catalog expansion in order. -/
theorem blocks_sentItem (pages : List (List Post)) : ∀ i : Nat,
    (((List.enumFrom i pages).flatMap fun pr =>
        PEvent.fetchPage pr.1 :: pageSends pr.2).filterMap PEvent.sentItem)
      = pages.flatten.flatMap postInto := by
  induction pages with
  | nil => intro i; simp
  | cons ps rs ih =>
    intro i
    simp only [List.enumFrom, List.flatMap_cons, List.filterMap_append, List.filterMap_cons]
    rw [pageSends_sentItem, ih]
    simp [List.flatMap_append, PEvent.sentItem]

/-- The per-page blocks fetch exactly the pages `i, i+1, …`, once each, in
order. -/
theorem blocks_fetchedPage (pages : List (List Post)) : ∀ i : Nat,
    (((List.enumFrom i pages).flatMap fun pr =>
        PEvent.fetchPage pr.1 :: pageSends pr.2).filterMap PEvent.fetchedPage)
      = List.range' i pages.length := by
  induction pages with
  | nil => intro i; simp
  | cons ps rs ih =>
    intro i
    simp only [List.enumFrom, List.flatMap_cons, List.filterMap_append, List.filterMap_cons]
    rw [pageSends_fetchedPage, ih]
    simp [List.range', PEvent.fetchedPage]

/-- The per-page blocks contain no close event. -/
theorem blocks_no_close (pages : List (List Post)) : ∀ i : Nat,
    PEvent.close ∉ ((List.enumFrom i pages).flatMap fun pr =>
        PEvent.fetchPage pr.1 :: pageSends pr.2) := by
  induction pages with
  | nil => intro i; simp
  | cons ps rs ih =>
    intro i hmem
    simp only [List.enumFrom, List.flatMap_cons, List.mem_append, List.mem_cons] at hmem
    rcases hmem with (h | h) | h
    · exact PEvent.noConfusion h
    · exact pageSends_no_close ps h
    · exact ih (i + 1) h

/-- Counting send events equals counting projected sent items. -/
theorem filter_isSend_length (tr : List PEvent) :
    (tr.filter PEvent.isSend).length = (tr.filterMap PEvent.sentItem).length := by
  induction tr with
  | nil => rfl
  | cons ev tl ih =>
    cases ev <;> simp [PEvent.isSend, PEvent.sentItem, List.filter_cons, List.filterMap_cons, ih]

/-- C1: on every catalog input (a nonempty page list `first :: rest`), the
producer's action trace consists of a prefix with no close event followed by
exactly one final close; the sends of the trace are exactly the concatenated
expansions of all entries in page-then-entry-then-resource-index order (so an
entry expanding to zero photos contributes nothing); the number of sends is
the sum over all entries of the size of their expansion; and every page is
still fetched exactly once, in order, regardless of empty expansions. -/
theorem producer_emits_all_then_closes (first : List Post) (rest : List (List Post)) :
    ∃ pre,
      producerTrace first rest = pre ++ [PEvent.close] ∧
      PEvent.close ∉ pre ∧
      (producerTrace first rest).filterMap PEvent.sentItem
        = (first :: rest).flatten.flatMap postInto ∧
      ((producerTrace first rest).filter PEvent.isSend).length
        = ((first :: rest).flatten.map fun p => (postInto p).length).sum ∧
      (producerTrace first rest).filterMap PEvent.fetchedPage
        = List.range (first :: rest).length := by
  refine ⟨(List.enumFrom 0 (first :: rest)).flatMap fun pr =>
      PEvent.fetchPage pr.1 :: pageSends pr.2, producerTrace_flat first rest,
      blocks_no_close (first :: rest) 0, ?_, ?_, ?_⟩
  · rw [producerTrace_flat, List.filterMap_append, blocks_sentItem]
    simp [PEvent.sentItem]
  · rw [filter_isSend_length, producerTrace_flat, List.filterMap_append, blocks_sentItem]
    simp [PEvent.sentItem, List.length_flatMap]
    rfl
  · rw [producerTrace_flat, List.filterMap_append, blocks_fetchedPage]
    simp [PEvent.fetchedPage, List.range_eq_range']

/-- C7: the producer trace is, structurally, one fetch per page immediately
followed by that page's sends, then the close: page `n + 1` is fetched only
after every entry of page `n` has been fully expanded and sent, a further
page is fetched exactly when a next page exists, and the number of fetches
is exactly the number of pages.  For a two-page catalog the trace is
literally fetch page 0, its sends, fetch page 1, its sends, close: page 1 is
fetched only after page 0 is fully expanded and no third fetch occurs. -/
theorem producer_fetches_pages_in_order (first : List Post) (rest : List (List Post)) :
    (producerTrace first rest
      = ((List.enumFrom 0 (first :: rest)).flatMap fun pr =>
          PEvent.fetchPage pr.1 :: pageSends pr.2) ++ [PEvent.close]) ∧
    (producerTrace first rest).filterMap PEvent.fetchedPage
      = List.range (first :: rest).length ∧
    ∀ p0 p1 : List Post,
      producerTrace p0 [p1]
        = PEvent.fetchPage 0 ::
            (pageSends p0 ++ (PEvent.fetchPage 1 :: (pageSends p1 ++ [PEvent.close]))) := by
  refine ⟨producerTrace_flat first rest, ?_, ?_⟩
  · rw [producerTrace_flat, List.filterMap_append, blocks_fetchedPage]
    simp [PEvent.fetchedPage, List.range_eq_range']
  · intro p0 p1
    simp [producerTrace, producerLoop]

/-! ## `FetchError` behaviour of the producer (claim C4)

The source propagates `reqwest::get` failures and JSON-decode failures
through `?`, but `Meta::is_success` is never called: `fetch_photo_posts`
never inspects `meta.status`, so a page whose body decodes successfully is
processed even when its embedded application status is non-success. -/

/-- Counterexample to C4 as stated: a fetched page whose payload
`meta.status` is `500` (not the success value `200`), yet
`fetch_photo_posts` completes with `Ok` instead of returning an error. -/
theorem fetch_ignores_status_counterexample :
    Meta.is_success failedStatusPage.meta = false ∧
    fetchPhotoPosts [Except.ok failedStatusPage] = Except.ok [] := by
  constructor
  · rfl
  · rfl

/-- C4 (amended): `fetch_photo_posts` fails when the HTTP request fails or
when response-body decoding fails — a failed round trip anywhere along the
link chain propagates as the function's error — but it never inspects the
payload's `meta`: rewriting every page's `meta` arbitrarily leaves the
result unchanged, and a chain of successfully decoded pages yields `Ok`
regardless of the application status codes they carry. -/
theorem fetch_fails_on_transport_not_status :
    (∀ e : FetchFailure, ∀ chain, fetchPhotoPosts (.error e :: chain) = .error e) ∧
    (∀ (f : Meta → Meta) (chain : List (Except FetchFailure (ResponseEnvelope Response))),
      fetchPhotoPosts (chain.map (mapMeta f)) = fetchPhotoPosts chain) ∧
    (∀ chain : List (Except FetchFailure (ResponseEnvelope Response)),
      (∀ r ∈ chain, r.isOk = true) → (fetchPhotoPosts chain).isOk = true) := by
  refine ⟨fun e chain => rfl, ?_, ?_⟩
  · intro f chain
    induction chain with
    | nil => rfl
    | cons r tl ih =>
      cases r with
      | error e => rfl
      | ok env =>
        simp only [List.map_cons, mapMeta, fetchPhotoPosts]
        cases env.response.links with
        | none => rfl
        | some lk => rw [ih]
  · intro chain h
    induction chain with
    | nil => rfl
    | cons r tl ih =>
      cases r with
      | error e =>
        have := h (.error e) (List.mem_cons_self _ _)
        simp [Except.isOk, Except.toBool] at this
      | ok env =>
        simp only [fetchPhotoPosts]
        cases hl : env.response.links with
        | none => rfl
        | some lk =>
          have htl := ih fun r hr => h r (List.mem_cons_of_mem _ hr)
          cases hfp : fetchPhotoPosts tl with
          | error e => rw [hfp] at htl; simp [Except.isOk, Except.toBool] at htl
          | ok items => simp [hfp, Except.isOk, Except.toBool, Except.map]

/-- Witness for the amended C4 at a concrete chain: two successfully decoded
pages, both carrying non-success status `503`, linked by a next reference;
the result is `Ok`. -/
theorem fetch_fails_on_transport_not_status_witness :
    (fetchPhotoPosts
      [Except.ok { meta := { status := 503, msg := "unavailable" },
                   response := { posts := [],
                                 links := some { next := { href := "/page2", method := "GET" } } } },
       Except.ok { meta := { status := 503, msg := "unavailable" },
                   response := { posts := [], links := none } }]).isOk = true :=
  fetch_fails_on_transport_not_status.2.2 _ (by decide)

/-! ## Filesystem lemmas and the write round trip (claims C8, C9) -/

/-- Reading back a just-written file yields the written content. -/
theorem FS.read_write_self (fs : FS) (p : String) (c : List Nat) :
    (fs.write p c).read p = some c := by
  simp [FS.read, FS.write, List.find?_cons]

/-- Dropping the entries at path `p` does not change lookups at `q ≠ p`. -/
theorem find?_filter_ne {p q : String} (h : q ≠ p) (l : List (String × List Nat)) :
    ((l.filter fun e => e.1 != p).find? fun e => e.1 == q)
      = l.find? fun e => e.1 == q := by
  induction l with
  | nil => rfl
  | cons e tl ih =>
    rcases eq_or_ne e.1 p with hep | hep
    · simp [List.filter_cons, List.find?_cons, hep, Ne.symm h, ih]
    · have h1 : (e.1 != p) = true := by simp [hep]
      by_cases h2 : e.1 = q <;> simp [List.filter_cons, List.find?_cons, h1, h2, h, ih]

/-- Writing path `p` does not change lookups at `q ≠ p`. -/
theorem FS.read_write_ne (fs : FS) {p q : String} (h : q ≠ p) (c : List Nat) :
    (fs.write p c).read q = fs.read q := by
  have hne : (p == q) = false := by simp [Ne.symm h]
  simp only [FS.read, FS.write, List.find?_cons, hne]
  rw [find?_filter_ne h]

/-- Forwarding chunks appends them, in order, to the file's content. -/
theorem forwardChunks_read_self (p : String) :
    ∀ (chunks : List (List Nat)) (fs : FS) (acc : List Nat),
      fs.read p = some acc →
        (forwardChunks p fs chunks).read p = some (acc ++ chunks.flatten) := by
  intro chunks
  induction chunks with
  | nil =>
    intro fs acc h
    simpa [forwardChunks] using h
  | cons ch tl ih =>
    intro fs acc h
    simp only [forwardChunks, h, Option.getD_some]
    rw [ih (fs.write p (acc ++ ch)) (acc ++ ch) (FS.read_write_self fs p (acc ++ ch))]
    simp

/-- Forwarding chunks to path `p` does not change other files. -/
theorem forwardChunks_read_ne (p q : String) (h : q ≠ p) :
    ∀ (chunks : List (List Nat)) (fs : FS),
      (forwardChunks p fs chunks).read q = fs.read q := by
  intro chunks
  induction chunks with
  | nil => intro fs; rfl
  | cons ch tl ih =>
    intro fs
    simp only [forwardChunks]
    rw [ih, FS.read_write_ne fs h]

/-- Writing a file never touches the directory set. -/
theorem forwardChunks_dirs (p : String) :
    ∀ (chunks : List (List Nat)) (fs : FS), (forwardChunks p fs chunks).dirs = fs.dirs := by
  intro chunks
  induction chunks with
  | nil => intro fs; rfl
  | cons ch tl ih => intro fs; simp only [forwardChunks]; rw [ih]; rfl

/-- A completed download never touches the directory set. -/
theorem fetchAndWritePhoto_dirs (fs : FS) (p : String) (chunks : List (List Nat)) :
    (fetchAndWritePhoto fs p chunks).dirs = fs.dirs := by
  unfold fetchAndWritePhoto
  rw [forwardChunks_dirs]
  rfl

/-- C8: a successful download writes exactly the fetched bytes — the file's
final content is the concatenation of the streamed chunks, with no
truncation — and leaves every other path untouched, so concurrent writes to
distinct destination files cannot interfere; consequently, whenever an
in-flight work item resolves successfully in the pipeline, the post-state
filesystem holds exactly the downloaded bytes at the item's destination path
and is unchanged elsewhere. -/
theorem fetchAndWritePhoto_roundtrip (fs : FS) (p : String) (chunks : List (List Nat)) :
    ((fetchAndWritePhoto fs p chunks).read p = some chunks.flatten ∧
      ∀ q, q ≠ p → (fetchAndWritePhoto fs p chunks).read q = fs.read q) ∧
    ∀ (cap : Nat) (dir : String) (dl : String → Except DlFailure (List (List Nat)))
      (pres : Except FetchFailure Unit) (s : GState)
      (pre post : List DownloadablePhoto) (it : DownloadablePhoto),
      s.cphase.pollsTasks = true → s.running = pre ++ it :: post →
        dl it.url = .ok chunks →
          ∃ s', Step cap dir dl pres s s' ∧
            s'.fs.read (dir ++ "/" ++ it.filename) = some chunks.flatten ∧
            ∀ q, q ≠ dir ++ "/" ++ it.filename → s'.fs.read q = s.fs.read q := by
  have key : ∀ (fs' : FS) (p' : String),
      (fetchAndWritePhoto fs' p' chunks).read p' = some chunks.flatten ∧
      ∀ q, q ≠ p' → (fetchAndWritePhoto fs' p' chunks).read q = fs'.read q := by
    intro fs' p'
    constructor
    · have := forwardChunks_read_self p' chunks (fs'.write p' []) [] (FS.read_write_self fs' p' [])
      simpa [fetchAndWritePhoto] using this
    · intro q hq
      rw [fetchAndWritePhoto, forwardChunks_read_ne p' q hq, FS.read_write_ne fs' hq]
  refine ⟨key fs p, ?_⟩
  intro cap dir dl pres s pre post it hph hrun hdl
  exact ⟨_, Step.resolveOk s pre it post chunks hph hrun hdl,
    (key s.fs (dir ++ "/" ++ it.filename)).1, (key s.fs (dir ++ "/" ++ it.filename)).2⟩

/-- Witness for C8 at concrete inputs: downloading `[1, 2] ++ [3]` to
`a.jpg` on the empty filesystem yields file content `[1, 2, 3]` and leaves
the distinct path `b.jpg` unread-able, exactly as before. -/
theorem fetchAndWritePhoto_roundtrip_witness :
    (fetchAndWritePhoto fs0 "/tmp/pics/a.jpg" [[1, 2], [3]]).read "/tmp/pics/a.jpg"
        = some [1, 2, 3] ∧
    (fetchAndWritePhoto fs0 "/tmp/pics/a.jpg" [[1, 2], [3]]).read "/tmp/pics/b.jpg"
        = fs0.read "/tmp/pics/b.jpg" :=
  ⟨(fetchAndWritePhoto_roundtrip fs0 "/tmp/pics/a.jpg" [[1, 2], [3]]).1.1,
    (fetchAndWritePhoto_roundtrip fs0 "/tmp/pics/a.jpg" [[1, 2], [3]]).1.2
      "/tmp/pics/b.jpg" (by decide)⟩

/-! ## Pipeline invariants (claims C2, C5, C6, C9) -/

/-- `create_dir_all` is idempotent: a second invocation is a no-op. -/
theorem createDirAll_idem (d : String) (fs : FS) :
    createDirAll d (createDirAll d fs) = createDirAll d fs := by
  by_cases hd : d ∈ fs.dirs <;> simp [createDirAll, hd]

/-- `create_dir_all` never touches existing files. -/
theorem createDirAll_files (d : String) (fs : FS) : (createDirAll d fs).files = fs.files := by
  unfold createDirAll
  split <;> rfl

/-- After `create_dir_all`, the directory exists. -/
theorem mem_createDirAll (d : String) (fs : FS) : d ∈ (createDirAll d fs).dirs := by
  unfold createDirAll
  split
  · assumption
  · exact List.mem_cons_self _ _

/-- The pipeline invariant holds initially. -/
theorem pipeInv_init (cap : Nat) (dirName : String) (items : List DownloadablePhoto) (f : FS) :
    PipeInv cap dirName (initState items f) := by
  refine ⟨by simp [initState], ?_, ?_, ?_, ?_, ?_, ?_⟩ <;>
    simp [initState, PipeInv]

/-- Every pipeline step preserves the invariant. -/
theorem pipeInv_step {cap : Nat} {dir : String}
    {dl : String → Except DlFailure (List (List Nat))} {pres : Except FetchFailure Unit}
    {s s' : GState} (hInv : PipeInv cap dir s) (hs : Step cap dir dl pres s s') :
    PipeInv cap dir s' := by
  obtain ⟨h1, h2, h3, h4, h5, h6, h7⟩ := hInv
  cases hs with
  | send it rest hts hpd hcap hrx =>
    exact ⟨by simpa using Nat.succ_le_of_lt hcap, h2, h3, h4, h5, h6, h7⟩
  | sendFail it rest hts hpd hrx =>
    exact ⟨h1, fun _ => rfl, fun _ => rfl,
      fun hph => ⟨rfl, (h4 hph).2.1, (h4 hph).2.2⟩, h5, h6, h7⟩
  | prodTerm hts hpd =>
    exact ⟨h1, fun _ => rfl, fun _ => rfl,
      fun hph => ⟨rfl, (h4 hph).2.1, (h4 hph).2.2⟩, h5, h6, h7⟩
  | makedir hph =>
    exact ⟨h1, h2, fun h => CPhase.noConfusion h, fun h => CPhase.noConfusion h,
      fun e h => CPhase.noConfusion h, fun h => CPhase.noConfusion h,
      fun _ => mem_createDirAll dir s.fs⟩
  | recvItem it rest hph hbuf =>
    refine ⟨?_, h2, h3, ?_, ?_, ?_, h7⟩
    · show rest.length ≤ cap
      have := h1
      rw [hbuf] at this
      simp only [List.length_cons] at this
      omega
    · intro h'
      rw [hph] at h'
      exact CPhase.noConfusion h'
    · intro e h'
      rw [hph] at h'
      exact CPhase.noConfusion h'
    · intro h'
      rw [hph] at h'
      exact CPhase.noConfusion h'
  | recvClosed hph hbuf hcl =>
    exact ⟨h1, h2, fun _ => hcl, fun h => CPhase.noConfusion h,
      fun e h => CPhase.noConfusion h, fun h => CPhase.noConfusion h,
      fun _ => h7 (by rw [hph]; exact fun h => CPhase.noConfusion h)⟩
  | resolveOk pre it post chunks hph hrun hdl =>
    refine ⟨h1, h2, h3, ?_, ?_, ?_, ?_⟩
    · intro h'
      rw [h'] at hph
      exact absurd hph (by simp [CPhase.pollsTasks])
    · intro e h'
      rw [h'] at hph
      exact absurd hph (by simp [CPhase.pollsTasks])
    · intro h'
      rw [h'] at hph
      exact absurd hph (by simp [CPhase.pollsTasks])
    · intro _
      rw [GState.fs]
      rw [fetchAndWritePhoto_dirs]
      exact h7 (by
        intro hmk
        rw [hmk] at hph
        exact absurd hph (by simp [CPhase.pollsTasks]))
  | resolveErr pre it post e hph hrun hdl =>
    refine ⟨h1, h2, h3, ?_, ?_, ?_, ?_⟩
    · intro h'
      rw [h'] at hph
      exact absurd hph (by simp [CPhase.pollsTasks])
    · intro e' h'
      rw [h'] at hph
      exact absurd hph (by simp [CPhase.pollsTasks])
    · intro h'
      rw [h'] at hph
      exact absurd hph (by simp [CPhase.pollsTasks])
    · exact fun _ => h7 (by
        intro hmk
        rw [hmk] at hph
        exact absurd hph (by simp [CPhase.pollsTasks]))
  | observeOk rest hph hrdy =>
    refine ⟨h1, h2, h3, ?_, ?_, ?_, h7⟩
    · intro h'
      rw [hph] at h'
      exact CPhase.noConfusion h'
    · intro e h'
      rw [hph] at h'
      exact CPhase.noConfusion h'
    · intro h'
      rw [hph] at h'
      exact CPhase.noConfusion h'
  | observeErr e rest hph hrdy =>
    exact ⟨h1, h2, fun h => CPhase.noConfusion h, fun h => CPhase.noConfusion h,
      fun e' _ => ⟨rfl, rfl⟩, fun h => CPhase.noConfusion h,
      fun _ => h7 (by rw [hph]; exact fun h => CPhase.noConfusion h)⟩
  | drainOk rest hph hrdy =>
    refine ⟨h1, h2, h3, ?_, ?_, ?_, h7⟩
    · intro h'
      rw [hph] at h'
      exact CPhase.noConfusion h'
    · intro e h'
      rw [hph] at h'
      exact CPhase.noConfusion h'
    · intro h'
      rw [hph] at h'
      exact CPhase.noConfusion h'
  | drainErr e rest hph hrdy =>
    exact ⟨h1, h2, fun h => CPhase.noConfusion h, fun h => CPhase.noConfusion h,
      fun e' _ => ⟨rfl, rfl⟩, fun h => CPhase.noConfusion h,
      fun _ => h7 (by rw [hph]; exact fun h => CPhase.noConfusion h)⟩
  | drainDone hph hrun hrdy =>
    exact ⟨h1, h2, fun h => CPhase.noConfusion h, fun _ => ⟨h3 hph, hrun, hrdy⟩,
      fun e h => CPhase.noConfusion h, fun h => CPhase.noConfusion h,
      fun _ => h7 (by rw [hph]; exact fun h => CPhase.noConfusion h)⟩

/-- The pipeline invariant holds in every reachable state. -/
theorem pipeInv_reachable {cap : Nat} {dir : String}
    {dl : String → Except DlFailure (List (List Nat))} {pres : Except FetchFailure Unit}
    {items : List DownloadablePhoto} {f : FS} {s : GState}
    (h : Reaches cap dir dl pres (initState items f) s) : PipeInv cap dir s := by
  induction h with
  | refl => exact pipeInv_init cap dir items f
  | tail _ hstep ih => exact pipeInv_step ih hstep

/-- Any step that grows the queue buffer is a completed `send`, which is
only possible while the buffer is strictly below capacity. -/
theorem step_buffer_grow {cap : Nat} {dir : String}
    {dl : String → Except DlFailure (List (List Nat))} {pres : Except FetchFailure Unit}
    {s s' : GState} (hs : Step cap dir dl pres s s')
    (hg : s.buffer.length < s'.buffer.length) : s.buffer.length < cap := by
  cases hs with
  | send it rest hts hpd hcap hrx => exact hcap
  | recvItem it rest hph hbuf =>
    rw [hbuf] at hg
    simp only [List.length_cons] at hg
    omega
  | sendFail it rest hts hpd hrx => exact absurd hg (lt_irrefl _)
  | prodTerm hts hpd => exact absurd hg (lt_irrefl _)
  | makedir hph => exact absurd hg (lt_irrefl _)
  | recvClosed hph hbuf hcl => exact absurd hg (lt_irrefl _)
  | resolveOk pre it post chunks hph hrun hdl => exact absurd hg (lt_irrefl _)
  | resolveErr pre it post e hph hrun hdl => exact absurd hg (lt_irrefl _)
  | observeOk rest hph hrdy => exact absurd hg (lt_irrefl _)
  | observeErr e rest hph hrdy => exact absurd hg (lt_irrefl _)
  | drainOk rest hph hrdy => exact absurd hg (lt_irrefl _)
  | drainErr e rest hph hrdy => exact absurd hg (lt_irrefl _)
  | drainDone hph hrun hrdy => exact absurd hg (lt_irrefl _)

/-- Any step that shrinks the queue buffer is a consumer dequeue: the head
item moves from the buffer into the in-flight set. -/
theorem step_buffer_shrink {cap : Nat} {dir : String}
    {dl : String → Except DlFailure (List (List Nat))} {pres : Except FetchFailure Unit}
    {s s' : GState} (hs : Step cap dir dl pres s s')
    (hg : s'.buffer.length < s.buffer.length) :
    ∃ it, s.buffer = it :: s'.buffer ∧ s'.running = s.running ++ [it] := by
  cases hs with
  | recvItem it rest hph hbuf => exact ⟨it, hbuf, rfl⟩
  | send it rest hts hpd hcap hrx =>
    exfalso
    simp only [List.length_append, List.length_cons] at hg
    omega
  | sendFail it rest hts hpd hrx => exact absurd hg (lt_irrefl _)
  | prodTerm hts hpd => exact absurd hg (lt_irrefl _)
  | makedir hph => exact absurd hg (lt_irrefl _)
  | recvClosed hph hbuf hcl => exact absurd hg (lt_irrefl _)
  | resolveOk pre it post chunks hph hrun hdl => exact absurd hg (lt_irrefl _)
  | resolveErr pre it post e hph hrun hdl => exact absurd hg (lt_irrefl _)
  | observeOk rest hph hrdy => exact absurd hg (lt_irrefl _)
  | observeErr e rest hph hrdy => exact absurd hg (lt_irrefl _)
  | drainOk rest hph hrdy => exact absurd hg (lt_irrefl _)
  | drainErr e rest hph hrdy => exact absurd hg (lt_irrefl _)
  | drainDone hph hrun hrdy => exact absurd hg (lt_irrefl _)

/-- C6: with `mpsc::channel(64)`, every reachable pipeline state holds at
most 64 sent-but-not-yet-dequeued work items in the queue; a send can only
complete (grow the buffer) while the buffer is strictly below 64, so the
65th not-yet-dequeued item's send stays suspended; and the only step that
frees buffer space is the consumer dequeueing an item into its in-flight
set, so a suspended send completes only after such a dequeue. -/
theorem queue_backpressure_capacity :
    (∀ (dir : String) (dl : String → Except DlFailure (List (List Nat)))
      (pres : Except FetchFailure Unit) (items : List DownloadablePhoto) (f : FS) (s : GState),
      Reaches queueCapacity dir dl pres (initState items f) s →
        s.buffer.length ≤ queueCapacity) ∧
    (∀ (dir : String) (dl : String → Except DlFailure (List (List Nat)))
      (pres : Except FetchFailure Unit) (s s' : GState),
      Step queueCapacity dir dl pres s s' → s.buffer.length < s'.buffer.length →
        s.buffer.length < queueCapacity) ∧
    (∀ (dir : String) (dl : String → Except DlFailure (List (List Nat)))
      (pres : Except FetchFailure Unit) (s s' : GState),
      Step queueCapacity dir dl pres s s' → s'.buffer.length < s.buffer.length →
        ∃ it, s.buffer = it :: s'.buffer ∧ s'.running = s.running ++ [it]) := by
  refine ⟨?_, ?_, ?_⟩
  · intro dir dl pres items f s h
    exact (pipeInv_reachable h).1
  · intro dir dl pres s s' hs hg
    exact step_buffer_grow hs hg
  · intro dir dl pres s s' hs hg
    exact step_buffer_shrink hs hg

/-- Witness for C6: the initial state is reachable and respects the bound. -/
theorem queue_backpressure_capacity_witness :
    (initState [] fs0).buffer.length ≤ queueCapacity :=
  queue_backpressure_capacity.1 downloadDirectory dlEmpty (Except.ok ()) [] fs0
    (initState [] fs0) Relation.ReflTransGen.refl

/-- C2: the consumer completes successfully exactly when the queue is closed
and the in-flight set is resolved and drained: in every reachable state in
which `fetch_photos` has returned `Ok`, the channel is closed and no
accepted download is unresolved or unharvested; conversely, once the queue
is closed, the buffer drained and every in-flight download resolved and
harvested, the consumer terminates (from the drain via `try_collect`'s
completion, and from the loop via `recv` returning `None` and then the empty
drain) rather than waiting further. -/
theorem consumer_completes_iff_closed_and_drained :
    (∀ (cap : Nat) (dir : String) (dl : String → Except DlFailure (List (List Nat)))
      (pres : Except FetchFailure Unit) (items : List DownloadablePhoto) (f : FS) (s : GState),
      Reaches cap dir dl pres (initState items f) s → s.cphase = CPhase.doneOk →
        s.closed = true ∧ s.running = [] ∧ s.ready = []) ∧
    (∀ (cap : Nat) (dir : String) (dl : String → Except DlFailure (List (List Nat)))
      (pres : Except FetchFailure Unit) (s : GState),
      s.cphase = CPhase.draining → s.running = [] → s.ready = [] →
        Step cap dir dl pres s { s with cphase := CPhase.doneOk }) ∧
    (∀ (cap : Nat) (dir : String) (dl : String → Except DlFailure (List (List Nat)))
      (pres : Except FetchFailure Unit) (s : GState),
      s.cphase = CPhase.looping → s.closed = true → s.buffer = [] → s.running = [] →
        s.ready = [] → Reaches cap dir dl pres s { s with cphase := CPhase.doneOk }) := by
  refine ⟨?_, ?_, ?_⟩
  · intro cap dir dl pres items f s h hph
    exact (pipeInv_reachable h).2.2.2.1 hph
  · intro cap dir dl pres s h1 h2 h3
    exact Step.drainDone s h1 h2 h3
  · intro cap dir dl pres s h1 h2 h3 h4 h5
    refine Relation.ReflTransGen.head (Step.recvClosed s h1 h3 h2) ?_
    exact Relation.ReflTransGen.single
      (Step.drainDone { s with cphase := CPhase.draining } rfl h4 h5)

/-- Witness for C2: a concrete complete run (empty catalog) ends with the
consumer at `doneOk`, and the theorem yields closed-and-drained there. -/
theorem consumer_completes_iff_closed_and_drained_witness :
    ({ toSend := [], prodDone := some (Except.ok ()), buffer := [], closed := true,
       cphase := CPhase.doneOk, running := [], ready := [],
       fs := createDirAll downloadDirectory fs0 } : GState).closed = true ∧
    ({ toSend := [], prodDone := some (Except.ok ()), buffer := [], closed := true,
       cphase := CPhase.doneOk, running := [], ready := [],
       fs := createDirAll downloadDirectory fs0 } : GState).running = [] ∧
    ({ toSend := [], prodDone := some (Except.ok ()), buffer := [], closed := true,
       cphase := CPhase.doneOk, running := [], ready := [],
       fs := createDirAll downloadDirectory fs0 } : GState).ready = [] := by
  have hreach : Reaches queueCapacity downloadDirectory dlEmpty (Except.ok ())
      (initState [] fs0)
      { toSend := [], prodDone := some (Except.ok ()), buffer := [], closed := true,
        cphase := CPhase.doneOk, running := [], ready := [],
        fs := createDirAll downloadDirectory fs0 } := by
    refine Relation.ReflTransGen.head (Step.prodTerm _ rfl rfl) ?_
    refine Relation.ReflTransGen.head (Step.makedir _ rfl) ?_
    refine Relation.ReflTransGen.head (Step.recvClosed _ rfl rfl rfl) ?_
    exact Relation.ReflTransGen.single (Step.drainDone _ rfl rfl rfl)
  exact consumer_completes_iff_closed_and_drained.1 queueCapacity downloadDirectory dlEmpty
    (Except.ok ()) [] fs0 _ hreach rfl

/-- C9: storage-root creation is idempotent (a second invocation is a no-op,
causes no error — it is total in the model — and loses no file data), and in
the pipeline it happens before the consumer accepts any work item: in every
reachable state past the `create_dir_all` control point, and in particular
in every reachable state with a non-empty in-flight set, the storage root
directory exists. -/
theorem storage_root_idempotent_and_first :
    (∀ (d : String) (f : FS), createDirAll d (createDirAll d f) = createDirAll d f) ∧
    (∀ (d : String) (f : FS),
      (createDirAll d f).files = f.files ∧ d ∈ (createDirAll d f).dirs) ∧
    (∀ (cap : Nat) (dir : String) (dl : String → Except DlFailure (List (List Nat)))
      (pres : Except FetchFailure Unit) (items : List DownloadablePhoto) (f : FS) (s : GState),
      Reaches cap dir dl pres (initState items f) s →
        (s.cphase ≠ CPhase.makedir → dir ∈ s.fs.dirs) ∧
        (s.running ≠ [] → dir ∈ s.fs.dirs)) := by
  refine ⟨createDirAll_idem, fun d f => ⟨createDirAll_files d f, mem_createDirAll d f⟩, ?_⟩
  intro cap dir dl pres items f s h
  have hinv := pipeInv_reachable h
  refine ⟨hinv.2.2.2.2.2.2, ?_⟩
  intro hrun
  exact hinv.2.2.2.2.2.2 fun hmk => hrun (hinv.2.2.2.2.2.1 hmk)

/-- Witness for C9: after the concrete `create_dir_all` step, the download
directory exists. -/
theorem storage_root_idempotent_and_first_witness :
    downloadDirectory ∈
      ({ toSend := [], prodDone := none, buffer := [], closed := false,
         cphase := CPhase.looping, running := [], ready := [],
         fs := createDirAll downloadDirectory fs0 } : GState).fs.dirs := by
  have hreach : Reaches queueCapacity downloadDirectory dlEmpty (Except.ok ())
      (initState [] fs0)
      { toSend := [], prodDone := none, buffer := [], closed := false,
        cphase := CPhase.looping, running := [], ready := [],
        fs := createDirAll downloadDirectory fs0 } :=
    Relation.ReflTransGen.single (Step.makedir _ rfl)
  exact (storage_root_idempotent_and_first.2.2 queueCapacity downloadDirectory dlEmpty
    (Except.ok ()) [] fs0 _ hreach).1 (by decide)

/-- Counterexample to C5 as stated: a reachable state in which the producer
task has terminated with an error and the queue is nevertheless closed —
`fetch_photo_posts` returning `Err` drops `tx`, and dropping the sender
closes a tokio mpsc channel. -/
theorem producer_failure_leaves_queue_open_counterexample :
    Reaches queueCapacity downloadDirectory dlEmpty
        (Except.error (FetchFailure.transport "connection refused"))
        (initState [] fs0)
        { toSend := [], closed := true, cphase := CPhase.makedir,
          prodDone := some (Except.error (FetchFailure.transport "connection refused")),
          buffer := [], running := [], ready := [], fs := fs0 } ∧
    ({ toSend := [], closed := true, cphase := CPhase.makedir,
       prodDone := some (Except.error (FetchFailure.transport "connection refused")),
       buffer := [], running := [], ready := [], fs := fs0 } : GState).closed = true :=
  ⟨Relation.ReflTransGen.single (Step.prodTerm _ rfl rfl), rfl⟩

/-- C5 (amended): producer termination — successful or failed — always
closes the queue, because the spawned `fetch_photo_posts` future completing
drops its `Sender`; consequently the consumer is not at risk of stalling on
a failed producer: it observes end-of-stream and terminates normally, and
`main` surfaces the producer's error when joining the spawned task.  A
concrete failed-producer run reaches consumer `doneOk` with the producer's
error recorded, and `main` reports that error. -/
theorem producer_failure_closes_queue :
    (∀ (cap : Nat) (dir : String) (dl : String → Except DlFailure (List (List Nat)))
      (pres : Except FetchFailure Unit) (items : List DownloadablePhoto) (f : FS) (s : GState),
      Reaches cap dir dl pres (initState items f) s → s.prodDone ≠ none → s.closed = true) ∧
    (∀ e : FetchFailure,
      mainResult (Except.ok ()) (Except.error e) = Except.error (Sum.inr (Except.error e))) ∧
    (Reaches queueCapacity downloadDirectory dlEmpty
        (Except.error (FetchFailure.transport "connection refused"))
        (initState [] fs0)
        { toSend := [], closed := true, cphase := CPhase.doneOk,
          prodDone := some (Except.error (FetchFailure.transport "connection refused")),
          buffer := [], running := [], ready := [],
          fs := createDirAll downloadDirectory fs0 } ∧
      consumerResult CPhase.doneOk = some (Except.ok ())) := by
  refine ⟨?_, fun e => rfl, ?_, rfl⟩
  · intro cap dir dl pres items f s h
    exact (pipeInv_reachable h).2.1
  · refine Relation.ReflTransGen.head (Step.prodTerm _ rfl rfl) ?_
    refine Relation.ReflTransGen.head (Step.makedir _ rfl) ?_
    refine Relation.ReflTransGen.head (Step.recvClosed _ rfl rfl rfl) ?_
    exact Relation.ReflTransGen.single (Step.drainDone _ rfl rfl rfl)

/-- Witness for the amended C5: applying the closure invariant to the
concrete one-step failed-producer run. -/
theorem producer_failure_closes_queue_witness :
    ({ toSend := [], closed := true, cphase := CPhase.makedir,
       prodDone := some (Except.error (FetchFailure.transport "connection refused")),
       buffer := [], running := [], ready := [], fs := fs0 } : GState).closed = true :=
  producer_failure_closes_queue.1 queueCapacity downloadDirectory dlEmpty
    (Except.error (FetchFailure.transport "connection refused")) [] fs0 _
    (Relation.ReflTransGen.single (Step.prodTerm _ rfl rfl)) (by simp)

/-- Counterexample to C3 as stated: a complete run of the five-item scenario
(exactly one download, `w3`'s, fails with a transport error) in which the
other four downloads do NOT run to completion and their files are NOT
written: all five were in flight when the failure was the first result the
loop observed, `result?` aborted `fetch_photos`, and dropping the
`FuturesUnordered` cancelled the four unresolved siblings.  The consumer
terminates in `doneErr` with no file on disk, and the overall run reports
failure. -/
theorem one_failure_cancels_siblings_counterexample :
    Reaches queueCapacity downloadDirectory dlFive (Except.ok ())
        (initState [w1, w2, w3, w4, w5] fs0) cancelledRunEnd ∧
    cancelledRunEnd.cphase = CPhase.doneErr (DlFailure.transport "boom") ∧
    dlFive w3.url = Except.error (DlFailure.transport "boom") ∧
    dlFive w1.url = Except.ok [[7, 7], [7]] ∧
    dlFive w2.url = Except.ok [[7, 7], [7]] ∧
    dlFive w4.url = Except.ok [[7, 7], [7]] ∧
    dlFive w5.url = Except.ok [[7, 7], [7]] ∧
    cancelledRunEnd.fs.read (photoPath w1) = none ∧
    cancelledRunEnd.fs.read (photoPath w2) = none ∧
    cancelledRunEnd.fs.read (photoPath w4) = none ∧
    cancelledRunEnd.fs.read (photoPath w5) = none ∧
    mainResult (Except.error (DlFailure.transport "boom")) (Except.ok ())
      = Except.error (Sum.inl (Except.error (DlFailure.transport "boom"))) := by
  refine ⟨?_, rfl, by decide, by decide, by decide, by decide, by decide,
    by decide, by decide, by decide, by decide, rfl⟩
  refine Relation.ReflTransGen.head (Step.send _ w1 [w2, w3, w4, w5] rfl rfl (by decide) rfl) ?_
  refine Relation.ReflTransGen.head (Step.send _ w2 [w3, w4, w5] rfl rfl (by decide) rfl) ?_
  refine Relation.ReflTransGen.head (Step.send _ w3 [w4, w5] rfl rfl (by decide) rfl) ?_
  refine Relation.ReflTransGen.head (Step.send _ w4 [w5] rfl rfl (by decide) rfl) ?_
  refine Relation.ReflTransGen.head (Step.send _ w5 [] rfl rfl (by decide) rfl) ?_
  refine Relation.ReflTransGen.head (Step.prodTerm _ rfl rfl) ?_
  refine Relation.ReflTransGen.head (Step.makedir _ rfl) ?_
  refine Relation.ReflTransGen.head (Step.recvItem _ w1 [w2, w3, w4, w5] rfl rfl) ?_
  refine Relation.ReflTransGen.head (Step.recvItem _ w2 [w3, w4, w5] rfl rfl) ?_
  refine Relation.ReflTransGen.head (Step.recvItem _ w3 [w4, w5] rfl rfl) ?_
  refine Relation.ReflTransGen.head (Step.recvItem _ w4 [w5] rfl rfl) ?_
  refine Relation.ReflTransGen.head (Step.recvItem _ w5 [] rfl rfl) ?_
  refine Relation.ReflTransGen.head
    (Step.resolveErr _ [w1, w2] w3 [w4, w5] (DlFailure.transport "boom") rfl rfl (by decide)) ?_
  exact Relation.ReflTransGen.single
    (Step.observeErr _ (DlFailure.transport "boom") [] rfl rfl)

/-- C3 (amended): when the consumer observes a failed download it terminates
with that error at once, discarding (cancelling) every still-unresolved
sibling; from that point nothing resolves and no file changes.  Sibling
downloads that resolved before the failure was observed keep their completed
files: in the favourable schedule of the five-item scenario where `w1`,
`w2`, `w4` and `w5` resolve first, their four complete files are on disk
while the overall run still reports the failure. -/
theorem one_failure_aborts_consumer_cancelling_siblings :
    (∀ (cap : Nat) (dir : String) (dl : String → Except DlFailure (List (List Nat)))
      (pres : Except FetchFailure Unit) (s s' : GState) (e : DlFailure),
      s.cphase = CPhase.doneErr e → Step cap dir dl pres s s' →
        s'.fs = s.fs ∧ s'.cphase = s.cphase ∧ s'.running = s.running ∧ s'.ready = s.ready) ∧
    (∀ (cap : Nat) (dir : String) (dl : String → Except DlFailure (List (List Nat)))
      (pres : Except FetchFailure Unit) (items : List DownloadablePhoto) (f : FS) (s : GState),
      Reaches cap dir dl pres (initState items f) s →
        ∀ e, s.cphase = CPhase.doneErr e → s.running = [] ∧ s.ready = []) ∧
    (Reaches queueCapacity downloadDirectory dlFive (Except.ok ())
        (initState [w1, w2, w3, w4, w5] fs0) completedRunEnd ∧
      completedRunEnd.fs.read (photoPath w1) = some [7, 7, 7] ∧
      completedRunEnd.fs.read (photoPath w2) = some [7, 7, 7] ∧
      completedRunEnd.fs.read (photoPath w4) = some [7, 7, 7] ∧
      completedRunEnd.fs.read (photoPath w5) = some [7, 7, 7] ∧
      completedRunEnd.cphase = CPhase.doneErr (DlFailure.transport "boom") ∧
      mainResult (Except.error (DlFailure.transport "boom")) (Except.ok ())
        = Except.error (Sum.inl (Except.error (DlFailure.transport "boom")))) := by
  refine ⟨?_, ?_, ?_, by decide, by decide, by decide, by decide, rfl, rfl⟩
  · intro cap dir dl pres s s' e hph hs
    cases hs with
    | send it rest hts hpd hcap hrx =>
      rw [hph] at hrx
      exact absurd hrx (by simp [CPhase.rxAlive])
    | sendFail it rest hts hpd hrx => exact ⟨rfl, rfl, rfl, rfl⟩
    | prodTerm hts hpd => exact ⟨rfl, rfl, rfl, rfl⟩
    | makedir hph' => rw [hph] at hph'; exact CPhase.noConfusion hph'
    | recvItem it rest hph' hbuf => rw [hph] at hph'; exact CPhase.noConfusion hph'
    | recvClosed hph' hbuf hcl => rw [hph] at hph'; exact CPhase.noConfusion hph'
    | resolveOk pre it post chunks hph' hrun hdl =>
      rw [hph] at hph'
      exact absurd hph' (by simp [CPhase.pollsTasks])
    | resolveErr pre it post e' hph' hrun hdl =>
      rw [hph] at hph'
      exact absurd hph' (by simp [CPhase.pollsTasks])
    | observeOk rest hph' hrdy => rw [hph] at hph'; exact CPhase.noConfusion hph'
    | observeErr e' rest hph' hrdy => rw [hph] at hph'; exact CPhase.noConfusion hph'
    | drainOk rest hph' hrdy => rw [hph] at hph'; exact CPhase.noConfusion hph'
    | drainErr e' rest hph' hrdy => rw [hph] at hph'; exact CPhase.noConfusion hph'
    | drainDone hph' hrun hrdy => rw [hph] at hph'; exact CPhase.noConfusion hph'
  · intro cap dir dl pres items f s h e hph
    exact (pipeInv_reachable h).2.2.2.2.1 e hph
  · refine Relation.ReflTransGen.head (Step.send _ w1 [w2, w3, w4, w5] rfl rfl (by decide) rfl) ?_
    refine Relation.ReflTransGen.head (Step.send _ w2 [w3, w4, w5] rfl rfl (by decide) rfl) ?_
    refine Relation.ReflTransGen.head (Step.send _ w3 [w4, w5] rfl rfl (by decide) rfl) ?_
    refine Relation.ReflTransGen.head (Step.send _ w4 [w5] rfl rfl (by decide) rfl) ?_
    refine Relation.ReflTransGen.head (Step.send _ w5 [] rfl rfl (by decide) rfl) ?_
    refine Relation.ReflTransGen.head (Step.prodTerm _ rfl rfl) ?_
    refine Relation.ReflTransGen.head (Step.makedir _ rfl) ?_
    refine Relation.ReflTransGen.head (Step.recvItem _ w1 [w2, w3, w4, w5] rfl rfl) ?_
    refine Relation.ReflTransGen.head (Step.recvItem _ w2 [w3, w4, w5] rfl rfl) ?_
    refine Relation.ReflTransGen.head (Step.recvItem _ w3 [w4, w5] rfl rfl) ?_
    refine Relation.ReflTransGen.head (Step.recvItem _ w4 [w5] rfl rfl) ?_
    refine Relation.ReflTransGen.head (Step.recvItem _ w5 [] rfl rfl) ?_
    refine Relation.ReflTransGen.head
      (Step.resolveOk _ [] w1 [w2, w3, w4, w5] [[7, 7], [7]] rfl rfl (by decide)) ?_
    refine Relation.ReflTransGen.head (Step.observeOk _ [] rfl rfl) ?_
    refine Relation.ReflTransGen.head
      (Step.resolveOk _ [] w2 [w3, w4, w5] [[7, 7], [7]] rfl rfl (by decide)) ?_
    refine Relation.ReflTransGen.head (Step.observeOk _ [] rfl rfl) ?_
    refine Relation.ReflTransGen.head
      (Step.resolveOk _ [w3] w4 [w5] [[7, 7], [7]] rfl rfl (by decide)) ?_
    refine Relation.ReflTransGen.head (Step.observeOk _ [] rfl rfl) ?_
    refine Relation.ReflTransGen.head
      (Step.resolveOk _ [w3] w5 [] [[7, 7], [7]] rfl rfl (by decide)) ?_
    refine Relation.ReflTransGen.head (Step.observeOk _ [] rfl rfl) ?_
    refine Relation.ReflTransGen.head (Step.recvClosed _ rfl rfl rfl) ?_
    refine Relation.ReflTransGen.head
      (Step.resolveErr _ [] w3 [] (DlFailure.transport "boom") rfl rfl (by decide)) ?_
    exact Relation.ReflTransGen.single
      (Step.drainErr _ (DlFailure.transport "boom") [] rfl rfl)

/-- Witness for the amended C3: applying the cancellation-permanence part to
a concrete step out of a `doneErr` state (a producer send failing against
the dropped receiver) leaves the filesystem unchanged. -/
theorem one_failure_aborts_consumer_cancelling_siblings_witness :
    ({ toSend := [w1], prodDone := some (Except.error FetchFailure.sendFailure), buffer := [],
       closed := true, cphase := CPhase.doneErr (DlFailure.transport "boom"),
       running := [], ready := [], fs := fs0 } : GState).fs
      = ({ toSend := [w1], prodDone := none, buffer := [], closed := false,
           cphase := CPhase.doneErr (DlFailure.transport "boom"),
           running := [], ready := [], fs := fs0 } : GState).fs :=
  (one_failure_aborts_consumer_cancelling_siblings.1 queueCapacity downloadDirectory dlFive
    (Except.ok ())
    { toSend := [w1], prodDone := none, buffer := [], closed := false,
      cphase := CPhase.doneErr (DlFailure.transport "boom"),
      running := [], ready := [], fs := fs0 } _
    (DlFailure.transport "boom") rfl (Step.sendFail _ w1 [] rfl rfl rfl)).1
